import Mathlib

/-!
Verification development for the local-llm-mailbot repository.

The Python sources are shallowly embedded as executable Lean definitions.
External collaborators (the llama-server LLM, Gmail, Google Calendar,
Telegram, and the `json.loads` routine of the Python standard library) are
modelled as explicit parameters: an LLM call becomes a list of per-attempt
outcomes, `json.loads` becomes a `String → Option _` parameter, and network
side effects become entries of an explicit effect trace.  Machine-level
details that the claims do not touch (SQL storage layout, UTF-8, threading)
are modelled by plain lists and integer timestamps; ISO timestamp strings,
which the code compares lexicographically in SQL, are modelled as integers,
and Python dictionaries are modelled as ordered key-value lists with
overwrite-in-place insertion, matching dict update semantics.
-/

/-- JSON values as produced by `json.loads`.  Numbers are modelled as
integers: every number the pipeline inspects (the `importance` field,
`duration_min`) is an integer by the prompt contract. -/
inductive JVal where
  | jstr (s : String)
  | jnum (n : Int)
  | jbool (b : Bool)
  | jnull
  | jarr (elems : List JVal)
  | jobj (fields : List (String × JVal))

/-- A Python dict with `JVal` values: ordered key-value pairs, unique keys. -/
abbrev JDict := List (String × JVal)

/-- Python dict `d.get(k)` / `k in d`: first binding of `k`, if any. -/
def dget (d : JDict) (k : String) : Option JVal :=
  (d.find? (fun p => p.1 == k)).map (·.2)

/-- Python dict assignment `d[k] = v`: overwrite in place if the key exists, else append,
matching Python dict insertion-order semantics. -/
def dinsert (d : JDict) (k : String) (v : JVal) : JDict :=
  if d.any (fun p => p.1 == k) then d.map (fun p => if p.1 == k then (k, v) else p)
  else d ++ [(k, v)]

/-- Python dict `d.update(e)` / `{**d, **e}`. -/
def dmerge (d e : JDict) : JDict :=
  e.foldl (fun acc p => dinsert acc p.1 p.2) d

/-- Python `x == s` where `x` is `d.get(k)`-style optional value: equality
against a string literal, false on `None` and on non-string values. -/
def jvalEqStr (x : Option JVal) (s : String) : Bool :=
  match x with
  | some (.jstr t) => t == s
  | _ => false

/-- Python subscript `d[k]`: raises `KeyError` when the key is absent.
Exceptions are modelled with `Except String`. -/
def pyGet (d : JDict) (k : String) : Except String JVal :=
  match dget d k with
  | some v => .ok v
  | none => .error "KeyError"

/-- Python numeric coercion of `d[k]` for a comparison such as
`d[k] >= threshold`: `KeyError` when absent, `TypeError` when the value is
not a number (Python `bool` counts as an integer). -/
def pyGetNum (d : JDict) (k : String) : Except String Int :=
  match dget d k with
  | some (.jnum n) => .ok n
  | some (.jbool b) => .ok (if b then 1 else 0)
  | some _ => .error "TypeError"
  | none => .error "KeyError"

/- ## `src/mailbot/classifier.py` -/

/-- Inner scan of `extract_json_objects` (classifier.py, lines 95-113): walk
the characters from an opening brace, tracking brace depth, and return the
offset of the brace at which the depth first returns to zero, or `none` when
the text ends first (the `for ... else: break` arm). -/
def scanClose : List Char → Int → Option Nat
  | [], _ => none
  | c :: rest, depth =>
    if c = '{' then (scanClose rest (depth + 1)).map (· + 1)
    else if c = '}' then
      if depth - 1 = 0 then some 0 else (scanClose rest (depth - 1)).map (· + 1)
    else (scanClose rest depth).map (· + 1)

/-- Outer loop of `extract_json_objects` (classifier.py, lines 81-118):
repeatedly find the next opening brace, take the balanced-brace candidate,
try to parse it (`parse` stands for `json.loads`; every candidate starts
with an opening brace, so a successful parse is an object and we record its
fields), skip it silently when malformed, and continue after the candidate.
When no closing brace is found the loop ends, keeping earlier objects.
The loop is written structurally on a fuel argument so that it computes;
every iteration consumes at least one character, so with the character
count as fuel the zero-fuel arm is never reached (`extractGo_fuel_ge`
below proves the fuel does not matter once it reaches the length). -/
def extractGo (parse : String → Option JDict) : Nat → List Char → List JDict
  | _, [] => []
  | 0, _ :: _ => []
  | fuel + 1, c :: rest =>
    if c = '{' then
      match scanClose (c :: rest) 0 with
      | none => []
      | some j =>
        match parse (String.mk ((c :: rest).take (j + 1))) with
        | some fields => fields :: extractGo parse fuel ((c :: rest).drop (j + 1))
        | none => extractGo parse fuel ((c :: rest).drop (j + 1))
    else extractGo parse fuel rest

/-- Function `extract_json_objects(text)`: all top-level well-formed brace-delimited
JSON objects of `text`, in scan order. -/
def extract_json_objects (parse : String → Option JDict) (text : String) : List JDict :=
  extractGo parse text.data.length text.data

/-- Companion of `extractGo` used to state the refinement in claim C9: the
balanced-brace candidate substrings in scan order, independent of parsing.
This definition follows the words of the specification: the caller extracts
the first well-formed object from the candidate sequence. -/
def candGo : Nat → List Char → List String
  | _, [] => []
  | 0, _ :: _ => []
  | fuel + 1, c :: rest =>
    if c = '{' then
      match scanClose (c :: rest) 0 with
      | none => []
      | some j => String.mk ((c :: rest).take (j + 1)) :: candGo fuel ((c :: rest).drop (j + 1))
    else candGo fuel rest

/-- The balanced-brace candidate substrings of a text, in scan order. -/
def candidatesOf (text : String) : List String :=
  candGo text.data.length text.data

/-- Function `llama_chat` (classifier.py, lines 121-178).  The external collaborator
is the per-attempt outcome list: `none` is a request error (retried), and
`some raw` is the free-text body of a successful response.  The function
returns the extracted object list of the first attempt that yields at least
one object, and `none` when every attempt fails - it never raises. -/
def llama_chat (parse : String → Option JDict) : List (Option String) → Option (List JDict)
  | [] => none
  | attempt :: rest =>
    match attempt with
    | none => llama_chat parse rest
    | some raw =>
      let js := extract_json_objects parse raw
      if js.isEmpty then llama_chat parse rest else some js

/-- The deterministic fallback of `initial_classify` (classifier.py, line 205). -/
def classify_fallback : JDict :=
  [("category", .jstr "Spam"), ("importance", .jnum 1),
   ("action", .jstr ""), ("summary", .jstr "")]

/-- Function `initial_classify` (classifier.py, lines 187-205): take the first object
of the `llama_chat` result; any exception (subscripting `None`, or an empty
list) is caught by the bare `except` and yields the fallback. -/
def initial_classify (parse : String → Option JDict)
    (attempts : List (Option String)) : JDict :=
  match llama_chat parse attempts with
  | some (j :: _) => j
  | some [] => classify_fallback
  | none => classify_fallback

/-- Function `deep_analyze` (classifier.py, lines 208-256): take the first object of
the `llama_chat` result; on failure return the four initial fields. -/
def deep_analyze (parse : String → Option JDict) (attempts : List (Option String))
    (initCat initImp initAct initSum : JVal) : JDict :=
  match llama_chat parse attempts with
  | some (j :: _) => j
  | _ => [("category", initCat), ("importance", initImp),
          ("action", initAct), ("summary", initSum)]

/- ## `src/mailbot/db.py` -/

/-- One row of the `tasks` table (db.py, lines 40-52).  The columns
`scheduled_time` and `sent` are the ones the dispatcher reads; ISO datetime
strings, compared lexicographically by SQLite, are modelled as integers. -/
structure TaskRow where
  task_id : Nat
  msg_id : String
  kind : String
  title : String
  target_date : String
  scheduled_time : Int
  sent : Int
  acct_email : Option String
deriving DecidableEq, Repr

/-- Autoincrement surrogate key for a fresh `tasks` row. -/
def nextTaskId (db : List TaskRow) : Nat :=
  (db.map (·.task_id)).foldl max 0 + 1

/-- Function `add_task` (db.py, lines 79-90): `INSERT OR IGNORE` under the unique
index on `(msg_id, type)`; returns the new table and whether a row was
inserted (`cur.rowcount == 1`). -/
def add_task (db : List TaskRow) (msg_id kind title target_date : String)
    (acct_email : Option String) (scheduled_time : Int) : List TaskRow × Bool :=
  if db.any (fun r => r.msg_id == msg_id && r.kind == kind) then (db, false)
  else (db ++ [⟨nextTaskId db, msg_id, kind, title, target_date, scheduled_time, 0, acct_email⟩],
        true)

/-- Function `get_due_tasks` (db.py, lines 92-99): rows with `sent = 0` and
`scheduled_time <= now`. -/
def get_due_tasks (db : List TaskRow) (now : Int) : List TaskRow :=
  db.filter (fun r => r.sent == 0 && r.scheduled_time ≤ now)

/-- Function `mark_task_sent` (db.py, lines 101-103): `UPDATE tasks SET sent = 1
WHERE task_id = ?`. -/
def mark_task_sent (db : List TaskRow) (tid : Nat) : List TaskRow :=
  db.map (fun r => if r.task_id == tid then { r with sent := 1 } else r)

/-- One row of the `contacts` table (db.py, lines 32-39); `profile_json` is
the nullable text column. -/
structure ContactRow where
  email : String
  name : String
  profile_json : Option String

/-- Function `get_contact_profile` (db.py, lines 142-157): fetch the row, return
an empty dict when the row is absent or the column is falsy (NULL or the
empty string), otherwise `json.loads` it, returning an empty dict on a
decode error.  The parameter `loads` stands for `json.loads`; `none` is a
`JSONDecodeError` (the only exception `json.loads` raises on text input,
and the one the source catches). -/
def get_contact_profile (loads : String → Option JVal) (contacts : List ContactRow)
    (email : String) : JVal :=
  match contacts.find? (fun c => c.email == email) with
  | none => .jobj []
  | some row =>
    match row.profile_json with
    | none => .jobj []
    | some s =>
      if s == "" then .jobj []
      else match loads s with
        | some v => v
        | none => .jobj []

/-- One row of the `emails` table, restricted to the columns the components
under verification read. -/
structure EmailRow where
  msg_id : String
  date : String
  from_addr : String
  to_addr : String
  thread_id : String
  subject : String
deriving DecidableEq, Repr

/- ## `src/mailbot/calendar_planner.py` -/

/-- A candidate item as assembled by `schedule_calendar_stage`
(src/main.py, lines 280-291); these dicts always carry exactly these keys,
so they are modelled as a structure. -/
structure PlanItem where
  msg_id : String
  thread_id : String
  title : String
  description : String
  action : String
  importance : Int
  deep_summary : String
  category : String
  date : String
  acct_email : String
deriving DecidableEq, Repr

/-- Sort key of the planner (calendar_planner.py, lines 32-35):
`(0 if category == "Important" else 1, -importance)`. -/
def planKey (x : PlanItem) : Int × Int :=
  (if x.category == "Important" then 0 else 1, -x.importance)

/-- Python tuple comparison on the sort key: lexicographic. -/
def tupLe (a b : Int × Int) : Bool :=
  a.1 < b.1 || (a.1 == b.1 && a.2 ≤ b.2)

/-- The comparison `sorted` uses on two items. -/
def planLe (a b : PlanItem) : Bool :=
  tupLe (planKey a) (planKey b)

/-- Stable insertion used to model the Python built-in `sorted`. -/
def pyInsert (le : α → α → Bool) (a : α) : List α → List α
  | [] => [a]
  | b :: l => if le a b then a :: b :: l else b :: pyInsert le a l

/-- Model of the Python built-in `sorted(l, key=...)`: a stable sort with
respect to the total preorder `le`.  Any two stable sorts agree, so stable
insertion sort is the semantics of Python sorting. -/
def pySorted (le : α → α → Bool) : List α → List α
  | [] => []
  | a :: l => pyInsert le a (pySorted le l)

/-- The dict comprehension of calendar_planner.py, lines 41-44: drop the
`msg_id` and `thread_id` keys from an already-scheduled task before showing
it to the model as context. -/
def dropIds (t : JDict) : JDict :=
  t.filter (fun p => !(p.1 == "msg_id" || p.1 == "thread_id"))

/-- Task dict stitched back together (calendar_planner.py, lines 77-82):
hidden ids first, then the fields of the first JSON object of the reply. -/
def mkPlanTask (item : PlanItem) (fields : JDict) : JDict :=
  dmerge [("msg_id", .jstr item.msg_id), ("thread_id", .jstr item.thread_id),
          ("acct_email", .jstr item.acct_email)] fields

/-- Sequential planning loop of `plan_calendar_actions` (calendar_planner.py,
lines 39-86).  `oracle i` is the per-attempt outcome list of the LLM call
made for the item at position `i`; the loop records, for each call, the
context (`so_far`, capped via `so_far[:10]`) it sent, and appends a task
when the reply contains a JSON object. -/
def planGo (parse : String → Option JDict) (oracle : Nat → List (Option String)) :
    List PlanItem → Nat → List JDict → List JDict × List (List JDict)
  | [], _, scheduled => (scheduled, [])
  | item :: rest, i, scheduled =>
    let ctx := (scheduled.map dropIds).take 10
    let scheduled' :=
      match llama_chat parse (oracle i) with
      | none => scheduled
      | some [] => scheduled
      | some (r0 :: _) => scheduled ++ [mkPlanTask item r0]
    let next := planGo parse oracle rest (i + 1) scheduled'
    (next.1, ctx :: next.2)

/-- Function `plan_calendar_actions` (calendar_planner.py, lines 22-86): sort the
items (Important category first, then decreasing importance, stable), then
plan them one at a time; returns the scheduled tasks and, for claim C8, the
trace of contexts sent to the model.  Enumeration starts at 1 as in
`enumerate(sorted_items, start=1)`. -/
def plan_calendar_actions (parse : String → Option JDict)
    (oracle : Nat → List (Option String)) (items : List PlanItem) :
    List JDict × List (List JDict) :=
  planGo parse oracle (pySorted planLe items) 1 []

/-- Scheduled-task list state just before the planning call at position `k`
(0-based within the sorted order), used to state claim C8. -/
def planSchedAt (parse : String → Option JDict) (oracle : Nat → List (Option String)) :
    List PlanItem → Nat → List JDict → Nat → List JDict
  | _, _, scheduled, 0 => scheduled
  | [], _, scheduled, _ + 1 => scheduled
  | item :: rest, i, scheduled, k + 1 =>
    let scheduled' :=
      match llama_chat parse (oracle i) with
      | none => scheduled
      | some [] => scheduled
      | some (r0 :: _) => scheduled ++ [mkPlanTask item r0]
    planSchedAt parse oracle rest (i + 1) scheduled' k

/- ## Sync cursor: the poll cycles of the two main loops -/

/-- One `history.list` record (`messagesAdded` entries). -/
structure HistoryRecord where
  messagesAdded : List String
deriving DecidableEq, Repr

/-- A successful `history.list` response: `resp.get("historyId", default)`
and `resp.get("history", [])`. -/
structure HistoryResponse where
  historyId : Option Int
  history : List HistoryRecord
deriving DecidableEq, Repr

/-- One poll of one account in the standalone `main_loop` (src/main.py,
lines 498-538): on `HttpError` the cursor is kept (`continue`); on success
the cursor is set to the reported `historyId` before the records are even
inspected, so an empty-history response still moves it; the message ids of
all `messagesAdded` entries are processed. -/
def rootPollCycle (start : Int) (resp : Option HistoryResponse) : Int × List String :=
  match resp with
  | none => (start, [])
  | some r =>
    let newHist := r.historyId.getD start
    (newHist, r.history.flatMap (·.messagesAdded))

/-- One poll of one account in the packaged `main_loop`
(src/mailbot/main.py, lines 243-280): on `HttpError` the cursor is kept; on
success the message ids are processed, but the cursor assignment sits inside
the `else` branch of `if not records`, so an empty-history response leaves
the cursor unchanged. -/
def pkgPollCycle (start : Int) (resp : Option HistoryResponse) : Int × List String :=
  match resp with
  | none => (start, [])
  | some r =>
    if r.history.isEmpty then (start, [])
    else
      let mids := r.history.flatMap (·.messagesAdded)
      let newHist := r.historyId.getD start
      (if newHist != start then newHist else start, mids)

/- ## `src/mailbot/main.py`: `process_message` -/

/-- Configured thresholds (src/mailbot/config.py). -/
def DEEP_THRESHOLD_IMPORTANCE : Int := 7

/-- Module flag `SEND_TELEGRAM_NOTIFICATIONS` (src/mailbot/main.py, line 51). -/
def SEND_TELEGRAM_NOTIFICATIONS : Bool := false

/-- The tuple returned by `get_full_message_from_payload` for the message
under processing (body extraction is an external collaborator). -/
structure ParsedMessage where
  subject : String
  snippet : String
  body : String
  thread_id : String
  frm : String
  to_addr : String
  date_iso : String
  age_days : Int
deriving DecidableEq, Repr

/-- Inputs and collaborator outcomes of one `process_message` run.  The two
LLM calls are oracles of per-attempt outcomes; `agentResult` is what the
out-of-scope `handle_action` agent run returns; `profileUpdate` is what
`update_contact_profile` returns (`none` means no update). -/
structure PMEnv where
  parse : String → Option JDict
  loads : String → Option JVal
  shallowAttempts : List (Option String)
  deepAttempts : List (Option String)
  cachedRaw : Bool
  fetchOk : Bool
  parsed : ParsedMessage
  agentResult : Option String
  profileUpdate : Option JVal
  minAlert : Int
  contacts : List ContactRow

/-- Externally visible actions of `process_message`, in order. -/
inductive PMEffect where
  | cacheRaw (mid : String)
  | markEmail (record : JDict)
  | handleAction (record : JDict)
  | setContactProfile (email : String)
  | sendTelegram (text : String)

/-- Recognizer for the action-execution stage, used to state claim C4. -/
def isHandleAction : PMEffect → Bool
  | .handleAction _ => true
  | _ => false

/-- Python truthiness of a JSON value. -/
def jvalTruthy : JVal → Bool
  | .jstr s => !(s == "")
  | .jnum n => !(n == 0)
  | .jbool b => b
  | .jnull => false
  | .jarr l => !l.isEmpty
  | .jobj f => !f.isEmpty

/-- The base record literal of `process_message` before `**init` is merged
(src/mailbot/main.py, lines 91-101 and 106-116). -/
def baseRecord (mid : String) (p : ParsedMessage) : JDict :=
  [("msg_id", .jstr mid), ("from", .jstr p.frm), ("to", .jstr p.to_addr),
   ("thread_id", .jstr p.thread_id), ("subject", .jstr p.subject),
   ("snippet", .jstr p.snippet), ("date", .jstr p.date_iso)]

/-- The record persisted on the spam short-circuit path: base fields, the
classification fields, and an empty `deep_summary`. -/
def spamRecord (mid : String) (p : ParsedMessage) (init : JDict) : JDict :=
  dinsert (dmerge (baseRecord mid p) init) "deep_summary" (.jstr "")

/-- Function `process_message` (src/mailbot/main.py, lines 58-180).  Returns the
record (or `none` when the message is skipped), the effect trace, and the
updated per-account spam set; a `.error` is an uncaught Python exception
(caught and logged by the caller).  The deep pass, the agent run, the
profile update and the alert check are all modelled; the alert never sends
because `SEND_TELEGRAM_NOTIFICATIONS` is false. -/
def process_message (env : PMEnv) (mid : String) (spammers : List String) :
    Except String (Option JDict × List PMEffect × List String) :=
  if !env.cachedRaw && !env.fetchOk then .ok (none, [], spammers) else
  let effs0 : List PMEffect := if env.cachedRaw then [] else [.cacheRaw mid]
  let p := env.parsed
  if spammers.contains p.frm then .ok (none, effs0, spammers) else
  let init := initial_classify env.parse env.shallowAttempts
  if jvalEqStr (dget init "category") "Spam" then
    let rec0 := spamRecord mid p init
    .ok (some rec0, effs0 ++ [.markEmail rec0],
         if spammers.contains p.frm then spammers else spammers ++ [p.frm])
  else
  let rec0 := spamRecord mid p init
  match pyGetNum init "importance" with
  | .error e => .error e
  | .ok imp =>
  let deepFlag : Except String Bool :=
    if imp ≥ DEEP_THRESHOLD_IMPORTANCE then .ok true
    else match pyGet init "category" with
      | .error e => .error e
      | .ok c => .ok (jvalEqStr (some c) "Important")
  match deepFlag with
  | .error e => .error e
  | .ok doDeep =>
  let recD : Except String JDict :=
    if doDeep then
      match pyGet init "category", pyGet init "importance",
            pyGet init "action", pyGet init "summary" with
      | .ok c, .ok i, .ok a, .ok s =>
        let _profFrom := get_contact_profile env.loads env.contacts p.frm
        let _profTo := get_contact_profile env.loads env.contacts p.to_addr
        .ok (dmerge rec0 (deep_analyze env.parse env.deepAttempts c i a s))
      | .error e, _, _, _ => .error e
      | _, .error e, _, _ => .error e
      | _, _, .error e, _ => .error e
      | _, _, _, .error e => .error e
    else .ok rec0
  match recD with
  | .error e => .error e
  | .ok rec1 =>
  match pyGet rec1 "category", pyGet rec1 "importance", pyGet rec1 "action" with
  | .error e, _, _ => .error e
  | _, .error e, _ => .error e
  | _, _, .error e => .error e
  | .ok _, .ok _, .ok _ =>
  let summaryPick : Except String JVal :=
    match pyGet rec1 "deep_summary" with
    | .error e => .error e
    | .ok ds => if jvalTruthy ds then .ok ds else pyGet rec1 "summary"
  match summaryPick with
  | .error e => .error e
  | .ok _ =>
  let rec2 := dinsert rec1 "agent_output" (.jstr "")
  let effs1 := effs0 ++ [.markEmail rec2]
  let effs2 := effs1 ++ [.handleAction rec2]
  let rec3 := dinsert rec2 "agent_output" (.jstr (env.agentResult.getD ""))
  let effs3 :=
    match env.profileUpdate with
    | some _ => effs2 ++ [.setContactProfile p.frm]
    | none => effs2
  let effs4 := effs3 ++ [.markEmail rec3]
  let alertCond : Except String Bool :=
    match pyGetNum rec3 "importance" with
    | .error e => .error e
    | .ok impR =>
      if impR ≥ env.minAlert then .ok true
      else match pyGet rec3 "category" with
        | .error e => .error e
        | .ok c => .ok (jvalEqStr (some c) "Important")
  match alertCond with
  | .error e => .error e
  | .ok _ => .ok (some rec3, effs4, spammers)

/- ## `src/main.py`: `schedule_calendar_stage` per-task processing -/

/-- Externally visible actions of the calendar stage for one planned task.
Message formatting of the notification is out of scope; the effect carries
the structured content. -/
inductive CalEffect where
  | createEvent (title descr : String) (startT endT : Int)
  | notifyEvent (title : String)
  | notifyReminder (title dateStr : String)
deriving DecidableEq, Repr

/-- Coercion of a `JVal` into the text stored in a TEXT column; the planner
prompt makes `title`, `datetime` and `description` strings. -/
def asStr (v : JVal) : Except String String :=
  match v with
  | .jstr s => .ok s
  | _ => .error "TypeError"

/-- The per-task body of the loop in `schedule_calendar_stage` (src/main.py,
lines 298-381): skip a task without a `type`; for an event, insert-if-absent
the task row (dispatch one day before the start), and only when inserted
create the calendar entry and notify; otherwise fall into the reminder
branch, insert-if-absent with dispatch two days before the target date, and
only when inserted notify.  `parseIso` stands for `datetime.fromisoformat`
(`none` is a `ValueError`); times are in minutes. -/
def processPlannedTask (parseIso : String → Option Int) (db : List TaskRow)
    (account_address : Option String) (t : JDict) :
    List TaskRow × Except String (List CalEffect) :=
  match pyGet t "thread_id" with
  | .error e => (db, .error e)
  | .ok _threadId =>
  if (dget t "type").isNone then (db, .ok []) else
  if jvalEqStr (dget t "type") "event" then
    match pyGet t "datetime" with
    | .error e => (db, .error e)
    | .ok dtV =>
    match asStr dtV with
    | .error e => (db, .error e)
    | .ok dtStr =>
    match parseIso dtStr with
    | none => (db, .error "ValueError")
    | some startT =>
    let durE : Except String Int :=
      match dget t "duration_min" with
      | none => .ok 30
      | some (.jnum n) => .ok n
      | some (.jbool b) => .ok (if b then 1 else 0)
      | some _ => .error "TypeError"
    match durE with
    | .error e => (db, .error e)
    | .ok dur =>
    let endT := startT + dur
    match pyGet t "msg_id", pyGet t "title" with
    | .error e, _ => (db, .error e)
    | _, .error e => (db, .error e)
    | .ok midV, .ok titleV =>
    match asStr midV, asStr titleV with
    | .error e, _ => (db, .error e)
    | _, .error e => (db, .error e)
    | .ok mid, .ok title =>
    let ins := add_task db mid "event" title dtStr account_address (startT - 1440)
    if !ins.2 then (ins.1, .ok []) else
    match pyGet t "description" with
    | .error e => (ins.1, .error e)
    | .ok descV =>
    match asStr descV with
    | .error e => (ins.1, .error e)
    | .ok descr =>
      (ins.1, .ok [.createEvent title descr startT endT, .notifyEvent title])
  else
    match pyGet t "datetime" with
    | .error e => (db, .error e)
    | .ok dtV =>
    match asStr dtV with
    | .error e => (db, .error e)
    | .ok dtStr =>
    let dateStr := String.mk (dtStr.data.takeWhile (· ≠ 'T'))
    match parseIso dateStr with
    | none => (db, .error "ValueError")
    | some target =>
    let sched := target - 2880
    match pyGet t "msg_id", pyGet t "title" with
    | .error e, _ => (db, .error e)
    | _, .error e => (db, .error e)
    | .ok midV, .ok titleV =>
    match asStr midV, asStr titleV with
    | .error e, _ => (db, .error e)
    | _, .error e => (db, .error e)
    | .ok mid, .ok title =>
    let ins := add_task db mid "reminder" title dtStr account_address sched
    if !ins.2 then (ins.1, .ok [])
    else (ins.1, .ok [.notifyReminder title dateStr])

/- ## `src/main.py`: `run_due_reminders` -/

/-- Trace entries of the reminder dispatcher: the Telegram send for a task,
and the `mark_task_sent` write, in program order. -/
inductive ReminderEvent where
  | sendReminder (taskId : Nat) (kind title : String)
  | markSent (taskId : Nat)
deriving DecidableEq, Repr

/-- Selection query of `run_due_reminders` (src/main.py, lines 73-79): the
unsent due tasks joined with their email rows (the join supplies
`thread_id` for the deep link). -/
def dueJoinedRows (db : List TaskRow) (emails : List EmailRow) (now : Int) :
    List (TaskRow × EmailRow) :=
  db.filterMap (fun t =>
    if t.sent == 0 && t.scheduled_time ≤ now then
      (emails.find? (fun e => e.msg_id == t.msg_id)).map (fun e => (t, e))
    else none)

/-- Function `run_due_reminders` (src/main.py, lines 71-113): for each
selected row, send the Telegram notification and only then mark the task
sent. -/
def run_due_reminders (db : List TaskRow) (emails : List EmailRow) (now : Int) :
    List TaskRow × List ReminderEvent :=
  let rows := dueJoinedRows db emails now
  rows.foldl
    (fun acc te =>
      (mark_task_sent acc.1 te.1.task_id,
       acc.2 ++ [.sendReminder te.1.task_id te.1.kind te.1.title, .markSent te.1.task_id]))
    (db, [])

/- ## `src/mailbot/task_agents.py`: confirmation gate and action tools -/

/-- Config flag `AGENT_ALWAYS_ASK_HUMAN` (src/mailbot/config.py, line 37). -/
def AGENT_ALWAYS_ASK_HUMAN : Bool := true

/-- A configured account (`ACCOUNTS` entry); only the address matters here. -/
structure Account where
  email : String
deriving DecidableEq, Repr

/-- The module-level `USER_CONFIRMATIONS` map together with the tables the
tools read; the map is keyed by `(tool name, message id)`. -/
structure ToolCtx where
  confirmations : List ((String × String) × Bool)
  emails : List EmailRow
  accounts : List Account

/-- Lookup in the confirmation map (`USER_CONFIRMATIONS.get(key, False)` is
`(confLookup m k).getD false`). -/
def confLookup (m : List ((String × String) × Bool)) (k : String × String) : Option Bool :=
  (m.find? (fun p => p.1 == k)).map (·.2)

/-- Assignment `USER_CONFIRMATIONS[key] = b`, with dict overwrite semantics. -/
def confRecord (m : List ((String × String) × Bool)) (k : String × String) (b : Bool) :
    List ((String × String) × Bool) :=
  if m.any (fun p => p.1 == k) then m.map (fun p => if p.1 == k then (k, b) else p)
  else m ++ [(k, b)]

/-- Externally visible actions of the tools. -/
inductive ToolEffect where
  | telegramButtons (frm subj details tool msgId : String)
  | gmailModify (msgId label : String)
  | gmailSend (toAddr subject body : String) (threadId replyTo : Option String)
  | calendarInsert (summary descr : String) (startT endT : Int)
  | calendarInsertReminder (summary : String) (startT endT leadMinutes : Int)
deriving DecidableEq, Repr

/-- The blocking consumption of `fetch_latest_user_reply` in
`AskUserYesNoTool.forward` (task_agents.py, lines 80-90): poll until the
reply is exactly `yes` or `no`; `none` models an empty queue poll, other
strings are ignored and polling continues.  An exhausted stream means the
call blocks forever, modelled as `none`. -/
def consumeReplies : List (Option String) → Option Bool
  | [] => none
  | r :: rest =>
    match r with
    | some s =>
      if s == "yes" then some true
      else if s == "no" then some false
      else consumeReplies rest
    | none => consumeReplies rest

/-- Method `AskUserYesNoTool.forward` (task_agents.py, lines 46-90), the
confirmation gate: look up the email headers for the prompt, send the
inline-button prompt, block until a yes/no reply, record the outcome in
`USER_CONFIRMATIONS`, and return it.  The effect list is produced even when
the call never unblocks.  Note the method never reads the map before
prompting. -/
def askUserYesNo_forward (ctx : ToolCtx) (msg_id tool details : String)
    (replies : List (Option String)) :
    List ToolEffect × Option (Bool × List ((String × String) × Bool)) :=
  let hdr :=
    match ctx.emails.find? (fun e => e.msg_id == msg_id) with
    | some row => (row.from_addr, row.subject)
    | none => ("[unknown sender]", "[no subject]")
  let effs : List ToolEffect := [.telegramButtons hdr.1 hdr.2 details tool msg_id]
  match consumeReplies replies with
  | none => (effs, none)
  | some b => (effs, some (b, confRecord ctx.confirmations (tool, msg_id) b))

/-- Helper `get_email_address` (task_agents.py, lines 300-306): `row[0]` of
the lookup; when no row exists, subscripting `None` raises. -/
def get_email_address (emails : List EmailRow) (msg_id : String) : Except String String :=
  match emails.find? (fun e => e.msg_id == msg_id) with
  | some row => .ok row.to_addr
  | none => .error "TypeError"

/-- Python substring test `needle in hay`. -/
def strContains (hay needle : String) : Bool :=
  decide (List.IsInfix needle.data hay.data)

/-- Method `GmailMarkSpamTool.forward` (task_agents.py, lines 108-129): find
the owning account (by substring match), then call the Gmail modify API
adding the SPAM label - with no confirmation lookup of any kind.  `modifyOk`
is the API call outcome; on an exception the method prints and falls off the
end, returning Python `None`. -/
def gmailMarkSpam_forward (ctx : ToolCtx) (msg_id : String) (modifyOk : Bool) :
    Except String (Option String × List ToolEffect) :=
  match get_email_address ctx.emails msg_id with
  | .error e => .error e
  | .ok acct_email =>
    match ctx.accounts.find? (fun a => strContains acct_email a.email) with
    | none => .ok (some ("ERROR: No configured account for " ++ acct_email), [])
    | some _ =>
      if modifyOk then
        .ok (some ("Message " ++ msg_id ++ " marked as SPAM."), [.gmailModify msg_id "SPAM"])
      else .ok (none, [.gmailModify msg_id "SPAM"])

/-- Method `SendEmailTool.forward` (task_agents.py, lines 147-167): look up
the original recipient and thread, pick the matching account
(`next(...)` raises `StopIteration` when absent), and send - again with no
confirmation lookup of any kind. -/
def sendEmail_forward (ctx : ToolCtx) (msg_id toAddr subject body : String) (is_reply : Bool) :
    Except String (String × List ToolEffect) :=
  match ctx.emails.find? (fun e => e.msg_id == msg_id) with
  | none => .error "TypeError"
  | some row =>
    match ctx.accounts.find? (fun a => a.email == row.to_addr) with
    | none => .error "StopIteration"
    | some _ =>
      .ok ("Email sent to " ++ toAddr ++ ".",
           [.gmailSend toAddr subject body (if is_reply then some row.thread_id else none)
              (if is_reply then some msg_id else none)])

/-- Method `GmailCreateEventTool.forward` (task_agents.py, lines 328-361):
refuse when `AGENT_ALWAYS_ASK_HUMAN` is set and no `True` outcome is
recorded under `("gmail_create_event", msg_id)`; otherwise parse the start
time, use the first configured account, and insert a 30-minute event.
`link` is the `htmlLink` of the created event. -/
def gmailCreateEvent_forward (ctx : ToolCtx) (msg_id title description dt_str : String)
    (parseIso : String → Option Int) (link : String) :
    Except String (String × List ToolEffect) :=
  if AGENT_ALWAYS_ASK_HUMAN
      && !((confLookup ctx.confirmations ("gmail_create_event", msg_id)).getD false) then
    .ok ("ERROR: Missing user confirmation for gmail_create_event on " ++ msg_id, [])
  else
    match parseIso dt_str with
    | none => .error "ValueError"
    | some startT =>
      match ctx.accounts with
      | [] => .error "IndexError"
      | _ :: _ =>
        .ok ("Event created: " ++ link,
             [.calendarInsert title
                (if description == "" then "Event for email " ++ msg_id else description)
                startT (startT + 30)])

/-- Method `ScheduleReminderTool.forward` (task_agents.py, lines 381-417):
refuse when `AGENT_ALWAYS_ASK_HUMAN` is set and no `True` outcome is
recorded under `("schedule_reminder", msg_id)`; otherwise create the
reminder event with email/popup overrides `lead_hours * 60` minutes ahead. -/
def scheduleReminder_forward (ctx : ToolCtx) (msg_id title deadline : String)
    (lead_hours : Int) (parseIso : String → Option Int) (link : String) :
    Except String (String × List ToolEffect) :=
  if AGENT_ALWAYS_ASK_HUMAN
      && !((confLookup ctx.confirmations ("schedule_reminder", msg_id)).getD false) then
    .ok ("ERROR: Missing user confirmation for schedule_reminder on " ++ msg_id, [])
  else
    match parseIso deadline with
    | none => .error "ValueError"
    | some startT =>
      match ctx.accounts with
      | [] => .error "IndexError"
      | _ :: _ =>
        .ok ("Reminder event created: " ++ link,
             [.calendarInsertReminder title startT (startT + 30) (lead_hours * 60)])

/- ## Concrete instances used by witnesses and counterexamples -/

/-- Projection of a dict entry to its integer value, used to compare task
dicts by observation. -/
def jnumOf (d : JDict) (key : String) : Option Int :=
  match dget d key with
  | some (.jnum n) => some n
  | _ => none

/-- A stored email row for the examples. -/
def exampleEmailRow : EmailRow :=
  ⟨"m1", "2024-01-01", "alice@ex.com", "me@ex.com", "t1", "Hello"⟩

/-- Tool context with an empty confirmation map. -/
def exampleToolCtx : ToolCtx :=
  { confirmations := [], emails := [exampleEmailRow], accounts := [⟨"me@ex.com"⟩] }

/-- Tool context in which the human has already answered yes once for
`("draft_reply", "m1")`. -/
def exampleConfCtx : ToolCtx :=
  { confirmations := [(("draft_reply", "m1"), true)],
    emails := [exampleEmailRow], accounts := [⟨"me@ex.com"⟩] }

/-- Parsed headers for the `process_message` example. -/
def exampleParsed : ParsedMessage :=
  ⟨"Sub", "Snip", "Body", "t1", "alice@ex.com", "me@ex.com", "2024-01-01", 1⟩

/-- Environment in which every classification attempt yields no parsable
JSON: the collaborator errors on all four default retries. -/
def exampleFailEnv : PMEnv :=
  { parse := fun _ => none, loads := fun _ => none,
    shallowAttempts := [none, none, none, none], deepAttempts := [],
    cachedRaw := true, fetchOk := true, parsed := exampleParsed,
    agentResult := none, profileUpdate := none, minAlert := 8, contacts := [] }

/-- Planner items of the spec example: A (Important, 5), B (Other, 9),
C (Important, 8). -/
def itemA : PlanItem := ⟨"a", "ta", "A", "", "", 5, "", "Important", "", "x"⟩

/-- Planner item B of the spec example. -/
def itemB : PlanItem := ⟨"b", "tb", "B", "", "", 9, "", "Other", "", "x"⟩

/-- Planner item C of the spec example. -/
def itemC : PlanItem := ⟨"c", "tc", "C", "", "", 8, "", "Important", "", "x"⟩

/-- Identically-keyed planner items, so the sorted order is arrival order. -/
def ctxItem (n : Nat) : PlanItem :=
  ⟨"m" ++ toString n, "t", "", "", "", 0, "", "x", "", "a"⟩

/-- Twelve items: eleven tasks get scheduled before the twelfth call. -/
def ctxItems : List PlanItem := (List.range 12).map ctxItem

/-- Raw LLM reply for planning call `i`: one balanced brace group whose
length encodes the call number. -/
def ctxRaw (i : Nat) : String := String.mk ('{' :: (List.replicate i 'a' ++ ['}']))

/-- Planning oracle: call `i` succeeds on its single attempt. -/
def ctxOracle (i : Nat) : List (Option String) := [some (ctxRaw i)]

/-- Parse stub for the planning example: every candidate is an object whose
`k` field is the candidate length. -/
def ctxParse (s : String) : Option JDict := some [("k", .jnum (s.length : Int))]

/-- Planned event-task dict for the calendar-stage example. -/
def exampleEventTask : JDict :=
  [("msg_id", .jstr "m1"), ("thread_id", .jstr "t1"), ("acct_email", .jstr "a@x"),
   ("type", .jstr "event"), ("title", .jstr "Standup"),
   ("datetime", .jstr "2024-01-02T10:00"), ("description", .jstr "daily")]

/-- Planned reminder-task dict for the calendar-stage example. -/
def exampleReminderTask : JDict :=
  [("msg_id", .jstr "m1"), ("thread_id", .jstr "t1"), ("acct_email", .jstr "a@x"),
   ("type", .jstr "reminder"), ("title", .jstr "Pay bill"),
   ("datetime", .jstr "2024-01-05T00:00")]

/-- Timestamp parser stub for the examples. -/
def exampleParseIso (s : String) : Option Int := some (s.length : Int)

/-- Task table for the dispatcher example: one due unsent task, one not yet
due, one already sent. -/
def exampleTasks : List TaskRow :=
  [⟨1, "m1", "reminder", "Pay bill", "2024-01-05", 100, 0, some "a@x"⟩,
   ⟨2, "m1", "event", "Standup", "2024-01-02", 900, 0, some "a@x"⟩,
   ⟨3, "m2", "reminder", "Old", "2023-12-01", 50, 1, some "a@x"⟩]

/-- Contact table and profile parser for the `get_contact_profile` example. -/
def exampleContacts : List ContactRow :=
  [⟨"alice@ex.com", "Alice", some "profile-json"⟩,
   ⟨"bob@ex.com", "Bob", some "broken"⟩,
   ⟨"carl@ex.com", "Carl", some ""⟩,
   ⟨"dora@ex.com", "Dora", none⟩]

/-- Profile parser stub: one valid stored profile, everything else is a
decode error. -/
def exampleLoads (s : String) : Option JVal :=
  if s == "profile-json" then some (.jobj [("likes", .jstr "tea")]) else none

/-- Parse stub for the extraction example: accepts exactly the two
well-formed candidates of `exampleLLMText`. -/
def exampleExtractParse (s : String) : Option JDict :=
  if s == String.mk ['{', 'B', '}'] then some [("tag", .jstr "B")]
  else if s == String.mk ['{', 'C', '}'] then some [("tag", .jstr "C")]
  else none

/-- LLM output containing, in order: a malformed candidate, a well-formed
object, and a second well-formed object. -/
def exampleLLMText : String :=
  String.mk ['x', '{', 'A', '}', 'y', '{', 'B', '}', '{', 'C', '}']

/- ## Helper lemmas -/

theorem confLookup_confRecord (m : List ((String × String) × Bool))
    (k : String × String) (b : Bool) : confLookup (confRecord m k b) k = some b := by
  unfold confRecord confLookup
  split
  case isTrue h =>
    induction m with
    | nil => simp at h
    | cons p m ih =>
      cases hp : (p.1 == k)
      · simp only [List.any_cons, hp, Bool.false_or] at h
        simpa [List.find?, hp] using ih h
      · simp [List.find?, hp]
  case isFalse h =>
    induction m with
    | nil => simp [List.find?]
    | cons p m ih =>
      simp only [List.any_cons, Bool.or_eq_true, not_or] at h
      have hp : (p.1 == k) = false := by
        cases hpk : (p.1 == k)
        · rfl
        · exact absurd hpk h.1
      simpa [List.find?, hp] using ih (by simpa using h.2)

theorem llama_chat_none (parse : String → Option JDict) (attempts : List (Option String))
    (h : ∀ a ∈ attempts, ∀ s, a = some s → extract_json_objects parse s = []) :
    llama_chat parse attempts = none := by
  induction attempts with
  | nil => rfl
  | cons a rest ih =>
    have hrest : ∀ a ∈ rest, ∀ s, a = some s → extract_json_objects parse s = [] :=
      fun a ha s hs => h a (List.mem_cons_of_mem _ ha) s hs
    cases a with
    | none => simpa [llama_chat] using ih hrest
    | some raw =>
      have hraw := h (some raw) (List.mem_cons_self _ _) raw rfl
      simp [llama_chat, hraw, List.isEmpty]
      exact ih hrest

/- ## Claim C10 -/

/-- C10: for every database state and address, `get_contact_profile` returns
a value and never raises: the parsed stored profile when the contact row
exists and holds valid JSON (in every reachable state a JSON object, since
`set_contact_profile` stores `json.dumps` of a dict), and the empty dict
when the contact is absent, the profile column is NULL or empty, or the
stored JSON is malformed (`loads _ = none` is the `JSONDecodeError` the
source catches). -/
theorem C10_contact_profile (loads : String → Option JVal)
    (contacts : List ContactRow) (email : String) :
    (contacts.find? (fun c => c.email == email) = none →
        get_contact_profile loads contacts email = .jobj [])
    ∧ (∀ row, contacts.find? (fun c => c.email == email) = some row →
        (row.profile_json = none → get_contact_profile loads contacts email = .jobj [])
        ∧ (∀ s, row.profile_json = some s →
            (s = "" → get_contact_profile loads contacts email = .jobj [])
            ∧ (∀ v, s ≠ "" → loads s = some v →
                get_contact_profile loads contacts email = v)
            ∧ (s ≠ "" → loads s = none →
                get_contact_profile loads contacts email = .jobj []))) := by
  refine ⟨fun h => by simp [get_contact_profile, h], fun row hrow => ?_⟩
  refine ⟨fun h => by simp [get_contact_profile, hrow, h], fun s hs => ?_⟩
  refine ⟨fun h => by simp [get_contact_profile, hrow, hs, h],
          fun v hne hv => ?_, fun hne hv => ?_⟩
  · have hne' : (s == "") = false := by simpa using hne
    simp [get_contact_profile, hrow, hs, hne', hv]
  · have hne' : (s == "") = false := by simpa using hne
    simp [get_contact_profile, hrow, hs, hne', hv]

/-- Witness for C10 at a concrete table: a stored valid profile is parsed, a
malformed one, an empty one, a NULL one and a missing contact all give the
empty dict. -/
theorem C10_contact_profile_witness :
    get_contact_profile exampleLoads exampleContacts "alice@ex.com"
        = .jobj [("likes", .jstr "tea")]
    ∧ get_contact_profile exampleLoads exampleContacts "bob@ex.com" = .jobj []
    ∧ get_contact_profile exampleLoads exampleContacts "carl@ex.com" = .jobj []
    ∧ get_contact_profile exampleLoads exampleContacts "dora@ex.com" = .jobj []
    ∧ get_contact_profile exampleLoads exampleContacts "nobody@ex.com" = .jobj [] := by
  refine ⟨?_, ?_, ?_, ?_, ?_⟩
  · exact (((C10_contact_profile exampleLoads exampleContacts "alice@ex.com").2
      ⟨"alice@ex.com", "Alice", some "profile-json"⟩ rfl).2 "profile-json" rfl).2.1
      (.jobj [("likes", .jstr "tea")]) (by decide) rfl
  · exact (((C10_contact_profile exampleLoads exampleContacts "bob@ex.com").2
      ⟨"bob@ex.com", "Bob", some "broken"⟩ rfl).2 "broken" rfl).2.2 (by decide) rfl
  · exact (((C10_contact_profile exampleLoads exampleContacts "carl@ex.com").2
      ⟨"carl@ex.com", "Carl", some ""⟩ rfl).2 "" rfl).1 rfl
  · exact ((C10_contact_profile exampleLoads exampleContacts "dora@ex.com").2
      ⟨"dora@ex.com", "Dora", none⟩ rfl).1 rfl
  · exact (C10_contact_profile exampleLoads exampleContacts "nobody@ex.com").1 rfl

/- ## Claim C3 -/

/-- C3 counterexample: in the packaged main loop (src/mailbot/main.py,
lines 262-280), a successful poll whose response reports watermark 9 with
zero new message ids leaves the cursor at 5 instead of advancing it to the
collaborator-reported watermark, because the cursor assignment sits inside
the `else` branch of `if not records`. -/
theorem C3_counterexample :
    (pkgPollCycle 5 (some ⟨some 9, []⟩)).1 = 5 ∧ ((5 : Int) ≠ 9) := by
  exact ⟨rfl, by decide⟩

/-- C3 amended: on a failed poll both loops keep the previous cursor; a
successful cycle never lowers the cursor provided the collaborator reports a
watermark greater than or equal to the one supplied; the standalone loop
(src/main.py) advances to the reported watermark even when the response
carries zero new message ids, but the packaged loop (src/mailbot/main.py)
advances only when the response carries at least one history record, leaving
the cursor unchanged on an empty-changes response. -/
theorem C3_cursor_monotonicity (start w : Int) (recs : List HistoryRecord)
    (hw : start ≤ w) :
    (rootPollCycle start none).1 = start
    ∧ (pkgPollCycle start none).1 = start
    ∧ (rootPollCycle start (some ⟨some w, recs⟩)).1 = w
    ∧ start ≤ (rootPollCycle start (some ⟨some w, recs⟩)).1
    ∧ (recs = [] → (pkgPollCycle start (some ⟨some w, recs⟩)).1 = start)
    ∧ (recs ≠ [] → (pkgPollCycle start (some ⟨some w, recs⟩)).1 = w)
    ∧ start ≤ (pkgPollCycle start (some ⟨some w, recs⟩)).1 := by
  refine ⟨rfl, rfl, rfl, by simpa [rootPollCycle] using hw, ?_, ?_, ?_⟩
  · intro h
    simp [pkgPollCycle, h]
  · intro h
    have hrecs : recs.isEmpty = false := by
      cases recs
      · exact absurd rfl h
      · rfl
    simp only [pkgPollCycle, hrecs, Bool.false_eq_true, if_false, Option.getD_some]
    by_cases hws : w = start
    · simp [hws]
    · have ht : (w != start) = true := by simpa using hws
      simp [ht]
  · cases recs with
    | nil => simp [pkgPollCycle]
    | cons r rs =>
      simp only [pkgPollCycle, List.isEmpty_cons, Bool.false_eq_true, if_false,
        Option.getD_some]
      by_cases hws : w = start
      · simp [hws]
      · have ht : (w != start) = true := by simpa using hws
        simpa [ht] using hw

/-- Witness for C3 at concrete inputs: cursor 3, reported watermark 7, one
history record. -/
theorem C3_cursor_monotonicity_witness :
    (rootPollCycle 3 (some ⟨some 7, [⟨["m9"]⟩]⟩)).1 = 7
    ∧ (pkgPollCycle 3 (some ⟨some 7, [⟨["m9"]⟩]⟩)).1 = 7
    ∧ (pkgPollCycle 3 none).1 = 3 := by
  have h := C3_cursor_monotonicity 3 7 [⟨["m9"]⟩] (by decide)
  exact ⟨h.2.2.1, h.2.2.2.2.2.1 (by decide), h.2.1⟩

/- ## Claim C1 -/

/-- C1 counterexample: `SendEmailTool.forward` contains no confirmation
lookup at all.  With an empty confirmation map (no outcome recorded for
`("send_email", "m1")`), invoking the tool sends the email - an external
effect - and returns a success message, not a refusal. -/
theorem C1_counterexample :
    confLookup exampleToolCtx.confirmations ("send_email", "m1") = none
    ∧ sendEmail_forward exampleToolCtx "m1" "bob@ex.com" "Re" "body" false
        = .ok ("Email sent to bob@ex.com.",
               [.gmailSend "bob@ex.com" "Re" "body" none none])
    ∧ [ToolEffect.gmailSend "bob@ex.com" "Re" "body" none none]
        ≠ ([] : List ToolEffect) := by
  exact ⟨rfl, rfl, by decide⟩

/-- C1 amended: only the create-event and schedule-reminder tools refuse to
execute when no confirmation outcome is recorded for their (tool name,
message id) key - they return a descriptive refusal string, do not raise,
and perform no external effect.  The mark-as-spam and send-email tools have
no confirmation check at all: whatever the confirmation map holds, they
perform their external effect and return a success message. -/
theorem C1_confirmation_refusals (ctx : ToolCtx) (mid title descr dt link : String)
    (deadline : String) (lead : Int) (parseIso : String → Option Int)
    (toA subj body : String) (isReply : Bool)
    (hce : (confLookup ctx.confirmations ("gmail_create_event", mid)).getD false = false)
    (hsr : (confLookup ctx.confirmations ("schedule_reminder", mid)).getD false = false) :
    gmailCreateEvent_forward ctx mid title descr dt parseIso link
      = .ok ("ERROR: Missing user confirmation for gmail_create_event on " ++ mid, [])
    ∧ scheduleReminder_forward ctx mid title deadline lead parseIso link
      = .ok ("ERROR: Missing user confirmation for schedule_reminder on " ++ mid, [])
    ∧ (∀ row, ctx.emails.find? (fun e => e.msg_id == mid) = some row →
        (∀ acct, ctx.accounts.find? (fun a => a.email == row.to_addr) = some acct →
          sendEmail_forward ctx mid toA subj body isReply
            = .ok ("Email sent to " ++ toA ++ ".",
                   [.gmailSend toA subj body (if isReply then some row.thread_id else none)
                      (if isReply then some mid else none)]))
        ∧ (∀ acct, ctx.accounts.find? (fun a => strContains row.to_addr a.email) = some acct →
            gmailMarkSpam_forward ctx mid true
              = .ok (some ("Message " ++ mid ++ " marked as SPAM."),
                     [.gmailModify mid "SPAM"]))) := by
  refine ⟨?_, ?_, fun row hrow => ⟨fun acct hacct => ?_, fun acct hacct => ?_⟩⟩
  · simp [gmailCreateEvent_forward, AGENT_ALWAYS_ASK_HUMAN, hce]
  · simp [scheduleReminder_forward, AGENT_ALWAYS_ASK_HUMAN, hsr]
  · simp [sendEmail_forward, hrow, hacct]
  · simp [gmailMarkSpam_forward, get_email_address, hrow, hacct]

/-- Witness for C1 at the concrete context: the two gated tools refuse with
an empty map, and the two ungated tools execute. -/
theorem C1_confirmation_refusals_witness :
    gmailCreateEvent_forward exampleToolCtx "m1" "T" "" "d" (fun _ => some 0) ""
      = .ok ("ERROR: Missing user confirmation for gmail_create_event on m1", [])
    ∧ scheduleReminder_forward exampleToolCtx "m1" "T" "d" 2 (fun _ => some 0) ""
      = .ok ("ERROR: Missing user confirmation for schedule_reminder on m1", [])
    ∧ sendEmail_forward exampleToolCtx "m1" "bob@ex.com" "Re" "b" false
      = .ok ("Email sent to bob@ex.com.", [.gmailSend "bob@ex.com" "Re" "b" none none])
    ∧ gmailMarkSpam_forward exampleToolCtx "m1" true
      = .ok (some ("Message m1 marked as SPAM."), [.gmailModify "m1" "SPAM"]) := by
  have h := C1_confirmation_refusals exampleToolCtx "m1" "T" "" "d" ""
    "d" 2 (fun _ => some 0) "bob@ex.com" "Re" "b" false rfl rfl
  have h3 := h.2.2 exampleEmailRow rfl
  exact ⟨h.1, h.2.1, h3.1 ⟨"me@ex.com"⟩ rfl, h3.2 ⟨"me@ex.com"⟩ (by decide)⟩

/- ## Claim C2 -/

/-- C2 counterexample: with the outcome `true` already recorded for
`("draft_reply", "m1")`, a second call to the gate still sends a fresh
prompt through the notification channel and blocks for a new reply; if the
user now clicks No, it returns `false`.  So a second call neither skips the
prompt nor returns the cached `true`. -/
theorem C2_counterexample :
    confLookup exampleConfCtx.confirmations ("draft_reply", "m1") = some true
    ∧ (askUserYesNo_forward exampleConfCtx "m1" "draft_reply" "ctx" [some "no"]).1
        = [.telegramButtons "alice@ex.com" "Hello" "ctx" "draft_reply" "m1"]
    ∧ ((askUserYesNo_forward exampleConfCtx "m1" "draft_reply" "ctx" [some "no"]).2.map
        Prod.fst) = some false
    ∧ ¬ ((askUserYesNo_forward exampleConfCtx "m1" "draft_reply" "ctx" [some "no"]).1 = []
         ∧ ((askUserYesNo_forward exampleConfCtx "m1" "draft_reply" "ctx" [some "no"]).2.map
             Prod.fst) = some true) := by
  refine ⟨rfl, rfl, rfl, ?_⟩
  intro h
  exact absurd h.1 (by decide)

/-- C2 amended: the gate records the boolean outcome keyed by (tool name,
message id) - which is what the gated tools later read - but it never reads
the map itself: every call, including a repeated call for an identical pair
after a recorded yes, sends exactly one new prompt through the notification
channel, blocks for a fresh reply, and returns that fresh answer.  Its
prompt and its returned boolean are independent of the recorded map. -/
theorem C2_gate_reprompts (ctx : ToolCtx) (mid tool details : String)
    (replies : List (Option String)) (b : Bool)
    (m2 : List ((String × String) × Bool))
    (hreply : consumeReplies replies = some b) :
    (askUserYesNo_forward ctx mid tool details replies).1.length = 1
    ∧ (askUserYesNo_forward ctx mid tool details replies).1
        = (askUserYesNo_forward { ctx with confirmations := m2 } mid tool details replies).1
    ∧ (askUserYesNo_forward ctx mid tool details replies).2
        = some (b, confRecord ctx.confirmations (tool, mid) b)
    ∧ ((askUserYesNo_forward ctx mid tool details replies).2.map Prod.fst)
        = ((askUserYesNo_forward { ctx with confirmations := m2 } mid tool details
            replies).2.map Prod.fst)
    ∧ (∀ mAfter, (askUserYesNo_forward ctx mid tool details replies).2
          = some (b, mAfter) → confLookup mAfter (tool, mid) = some b) := by
  refine ⟨?_, ?_, ?_, ?_, ?_⟩
  · simp only [askUserYesNo_forward]
    cases hfind : ctx.emails.find? (fun e => e.msg_id == mid) <;> simp [hreply]
  · simp only [askUserYesNo_forward, hreply]
  · simp only [askUserYesNo_forward, hreply]
  · simp [askUserYesNo_forward, hreply]
  · intro mAfter hm
    simp only [askUserYesNo_forward, hreply] at hm
    have : mAfter = confRecord ctx.confirmations (tool, mid) b := by
      cases hfind : ctx.emails.find? (fun e => e.msg_id == mid) <;>
        simp [hfind] at hm <;> exact hm.symm
    rw [this]
    exact confLookup_confRecord _ _ _

/-- Witness for C2: in the context where yes is already recorded, a second
call still emits one prompt, and a fresh no answer is returned and
recorded. -/
theorem C2_gate_reprompts_witness :
    (askUserYesNo_forward exampleConfCtx "m1" "draft_reply" "ctx" [some "no"]).1.length = 1
    ∧ (askUserYesNo_forward exampleConfCtx "m1" "draft_reply" "ctx" [some "no"]).2
        = some (false, confRecord exampleConfCtx.confirmations ("draft_reply", "m1") false)
    ∧ confLookup (confRecord exampleConfCtx.confirmations ("draft_reply", "m1") false)
        ("draft_reply", "m1") = some false := by
  have h := C2_gate_reprompts exampleConfCtx "m1" "draft_reply" "ctx" [some "no"] false
    [] rfl
  exact ⟨h.1, h.2.2.1, h.2.2.2.2 _ h.2.2.1⟩

/- ## Claim C5 -/

/-- C5: task uniqueness.  After a first insert for a (message id, kind)
pair, a later `add_task` for the same pair inserts nothing and reports
false; and at the calendar-stage level, when a row for the pair already
exists the whole per-item action is skipped: the table is unchanged and no
calendar entry and no notification is produced, for the event branch and
for the reminder branch alike. -/
theorem C5_task_uniqueness (db : List TaskRow) (m kind title target : String)
    (acct : Option String) (sched : Int) (title2 target2 : String)
    (acct2 : Option String) (sched2 : Int)
    (parseIso : String → Option Int) (db2 : List TaskRow) (acct3 : Option String)
    (t u : JDict) (tv uv : JVal) (ds us : String) (st tg : Int) (ti1 ti2 : String) :
    add_task (add_task db m kind title target acct sched).1 m kind title2 target2 acct2 sched2
      = ((add_task db m kind title target acct sched).1, false)
    ∧ (dget t "thread_id" = some tv →
       dget t "type" = some (.jstr "event") →
       dget t "datetime" = some (.jstr ds) →
       parseIso ds = some st →
       dget t "duration_min" = none →
       dget t "msg_id" = some (.jstr m) →
       dget t "title" = some (.jstr ti1) →
       db2.any (fun r => r.msg_id == m && r.kind == "event") = true →
       processPlannedTask parseIso db2 acct3 t = (db2, .ok []))
    ∧ (dget u "thread_id" = some uv →
       dget u "type" = some (.jstr "reminder") →
       dget u "datetime" = some (.jstr us) →
       parseIso (String.mk (us.data.takeWhile (· ≠ 'T'))) = some tg →
       dget u "msg_id" = some (.jstr m) →
       dget u "title" = some (.jstr ti2) →
       db2.any (fun r => r.msg_id == m && r.kind == "reminder") = true →
       processPlannedTask parseIso db2 acct3 u = (db2, .ok [])) := by
  refine ⟨?_, ?_, ?_⟩
  · unfold add_task
    by_cases h : db.any (fun r => r.msg_id == m && r.kind == kind) = true
    · simp [h]
    · have h' : db.any (fun r => r.msg_id == m && r.kind == kind) = false := by
        simpa using h
      simp [h']
  · intro h1 h2 h3 h4 h5 h6 h7 h8
    simp [processPlannedTask, pyGet, h1, h2, h3, h4, h5, h6, h7, h8, asStr,
      jvalEqStr, add_task]
  · intro h1 h2 h3 h4 h5 h6 h7
    simp only [ne_eq, decide_not] at h4
    simp [processPlannedTask, pyGet, h1, h2, h3, h4, h5, h6, h7, asStr,
      jvalEqStr, add_task]

/-- Witness for C5: with both task rows already present, re-planning the
same event and the same reminder changes nothing and produces no effects;
a second raw insert reports false. -/
theorem C5_task_uniqueness_witness :
    add_task (add_task [] "m1" "event" "T" "D" (some "a@x") 0).1 "m1" "event" "T2" "D2" none 5
      = ((add_task [] "m1" "event" "T" "D" (some "a@x") 0).1, false)
    ∧ processPlannedTask exampleParseIso exampleTasks (some "a@x") exampleEventTask
      = (exampleTasks, .ok [])
    ∧ processPlannedTask exampleParseIso exampleTasks (some "a@x") exampleReminderTask
      = (exampleTasks, .ok []) := by
  have h := C5_task_uniqueness [] "m1" "event" "T" "D" (some "a@x") 0 "T2" "D2" none 5
    exampleParseIso exampleTasks (some "a@x") exampleEventTask exampleReminderTask
    (.jstr "t1") (.jstr "t1") "2024-01-02T10:00" "2024-01-05T00:00" 16 10 "Standup" "Pay bill"
  exact ⟨h.1, h.2.1 rfl rfl rfl rfl rfl rfl rfl (by decide),
         h.2.2 rfl rfl rfl rfl rfl rfl (by decide)⟩

/- ## Claim C6 -/

theorem run_due_reminders_split (db : List TaskRow) (emails : List EmailRow) (now : Int) :
    run_due_reminders db emails now
      = ((dueJoinedRows db emails now).foldl (fun d te => mark_task_sent d te.1.task_id) db,
         (dueJoinedRows db emails now).flatMap (fun te =>
           [.sendReminder te.1.task_id te.1.kind te.1.title, .markSent te.1.task_id])) := by
  unfold run_due_reminders
  generalize dueJoinedRows db emails now = rows
  suffices h : ∀ (rows : List (TaskRow × EmailRow)) (d : List TaskRow)
      (acc : List ReminderEvent),
      rows.foldl (fun a te => (mark_task_sent a.1 te.1.task_id,
        a.2 ++ [.sendReminder te.1.task_id te.1.kind te.1.title, .markSent te.1.task_id]))
        (d, acc)
      = (rows.foldl (fun x te => mark_task_sent x te.1.task_id) d,
         acc ++ rows.flatMap (fun te =>
           [.sendReminder te.1.task_id te.1.kind te.1.title, .markSent te.1.task_id])) by
    simpa using h rows db []
  intro rows
  induction rows with
  | nil => intro d acc; simp
  | cons te rows ih =>
    intro d acc
    simp [List.foldl_cons, ih, List.flatMap_cons]

theorem markFold_eq_map (rows : List (TaskRow × EmailRow)) (db : List TaskRow) :
    rows.foldl (fun d te => mark_task_sent d te.1.task_id) db
      = db.map (fun r => if rows.any (fun te => r.task_id == te.1.task_id) then
          { r with sent := 1 } else r) := by
  induction rows generalizing db with
  | nil => simp
  | cons te rows ih =>
    rw [List.foldl_cons, ih]
    unfold mark_task_sent
    rw [List.map_map]
    apply List.map_congr_left
    intro r _
    simp only [Function.comp]
    by_cases h1 : (r.task_id == te.1.task_id) = true
    · by_cases h2 : (rows.any fun te2 => r.task_id == te2.1.task_id) = true
      · simp [h1, h2]
      · have h2' : (rows.any fun te2 => r.task_id == te2.1.task_id) = false := by
          simpa using h2
        simp [h1, h2']
    · have h1' : (r.task_id == te.1.task_id) = false := by simpa using h1
      simp only [List.any_cons, h1', Bool.false_eq_true, if_false, Bool.false_or]

theorem markSent_after_send (rows : List (TaskRow × EmailRow)) :
    ∀ k tid, ((rows.flatMap (fun te => [ReminderEvent.sendReminder te.1.task_id te.1.kind
        te.1.title, ReminderEvent.markSent te.1.task_id])).get? k
        = some (.markSent tid)) →
      ∃ j < k, ∃ kd ti, ((rows.flatMap (fun te => [ReminderEvent.sendReminder te.1.task_id
        te.1.kind te.1.title, ReminderEvent.markSent te.1.task_id])).get? j
        = some (.sendReminder tid kd ti)) := by
  induction rows with
  | nil => intro k tid h; simp at h
  | cons te rows ih =>
    intro k tid h
    match k with
    | 0 => simp [List.flatMap_cons] at h
    | 1 =>
      simp only [List.flatMap_cons, List.cons_append, List.get?_cons_succ,
        List.get?_cons_zero, Option.some.injEq] at h
      refine ⟨0, by omega, te.1.kind, te.1.title, ?_⟩
      simp only [List.flatMap_cons, List.cons_append, List.get?_cons_zero,
        Option.some.injEq]
      cases h
      rfl
    | (n + 2) =>
      have h' : ((rows.flatMap (fun te => [ReminderEvent.sendReminder te.1.task_id te.1.kind
          te.1.title, ReminderEvent.markSent te.1.task_id])).get? n)
          = some (.markSent tid) := by
        simpa [List.flatMap_cons] using h
      obtain ⟨j, hj, kd, ti, hg⟩ := ih n tid h'
      exact ⟨j + 2, by omega, kd, ti, by simpa [List.flatMap_cons] using hg⟩

/-- C6: due-task selection and dispatch.  A task is selected by
`get_due_tasks` if and only if `now >= scheduled_time` and `sent = 0` (the
dispatcher loop additionally joins the email row for the deep link); the
dispatch trace sends the notification for each selected task and marks it
sent only afterwards; after the run every dispatched task id carries
`sent = 1` and is excluded from every future selection. -/
theorem C6_due_dispatch (db : List TaskRow) (emails : List EmailRow) (now : Int) :
    (∀ r : TaskRow, r ∈ get_due_tasks db now
        ↔ (r ∈ db ∧ r.sent = 0 ∧ r.scheduled_time ≤ now))
    ∧ (run_due_reminders db emails now).2
        = (dueJoinedRows db emails now).flatMap (fun te =>
            [.sendReminder te.1.task_id te.1.kind te.1.title, .markSent te.1.task_id])
    ∧ (∀ te ∈ dueJoinedRows db emails now,
        ∀ r ∈ (run_due_reminders db emails now).1, r.task_id = te.1.task_id → r.sent = 1)
    ∧ (∀ te ∈ dueJoinedRows db emails now, ∀ now2 : Int,
        ∀ r ∈ get_due_tasks (run_due_reminders db emails now).1 now2,
          r.task_id ≠ te.1.task_id)
    ∧ (∀ k tid, ((run_due_reminders db emails now).2).get? k = some (.markSent tid) →
        ∃ j < k, ∃ kd ti, ((run_due_reminders db emails now).2).get? j
          = some (.sendReminder tid kd ti)) := by
  have hsel : ∀ r : TaskRow, r ∈ get_due_tasks db now
      ↔ (r ∈ db ∧ r.sent = 0 ∧ r.scheduled_time ≤ now) := by
    intro r
    simp [get_due_tasks, List.mem_filter]
  have hsplit := run_due_reminders_split db emails now
  have hmarked : ∀ te ∈ dueJoinedRows db emails now,
      ∀ r ∈ (run_due_reminders db emails now).1, r.task_id = te.1.task_id → r.sent = 1 := by
    intro te hte r hr hid
    rw [hsplit] at hr
    simp only at hr
    rw [markFold_eq_map] at hr
    obtain ⟨r0, hr0, hre⟩ := List.mem_map.1 hr
    have hany : ((dueJoinedRows db emails now).any
        fun te2 => r0.task_id == te2.1.task_id) = true := by
      have hid0 : r0.task_id = te.1.task_id := by
        by_cases hc : ((dueJoinedRows db emails now).any
            fun te2 => r0.task_id == te2.1.task_id) = true
        · rw [if_pos hc] at hre
          rw [← hre] at hid
          exact hid
        · rw [if_neg hc] at hre
          rw [← hre] at hid
          exact hid
      exact List.any_eq_true.2 ⟨te, hte, by simp [hid0]⟩
    rw [if_pos hany] at hre
    rw [← hre]
  refine ⟨hsel, by rw [hsplit], hmarked, ?_, ?_⟩
  · intro te hte now2 r hr
    have hmem : r ∈ (run_due_reminders db emails now).1 ∧ r.sent = 0 ∧ r.scheduled_time ≤ now2 := by
      simpa [get_due_tasks, List.mem_filter] using hr
    intro hid
    have := hmarked te hte r hmem.1 hid
    rw [this] at hmem
    exact absurd hmem.2.1 (by decide)
  · intro k tid h
    rw [hsplit] at h
    simp only at h
    obtain ⟨j, hj, kd, ti, hg⟩ := markSent_after_send (dueJoinedRows db emails now) k tid h
    refine ⟨j, hj, kd, ti, ?_⟩
    rw [hsplit]
    exact hg

/-- Witness for C6 at the concrete table: at time 500 exactly the unsent due
task (id 1) is selected and dispatched, its send precedes its mark, and at
any later time it is no longer selected. -/
theorem C6_due_dispatch_witness :
    (⟨1, "m1", "reminder", "Pay bill", "2024-01-05", 100, 0, some "a@x"⟩ : TaskRow)
      ∈ get_due_tasks exampleTasks 500
    ∧ (run_due_reminders exampleTasks [exampleEmailRow] 500).2
        = [.sendReminder 1 "reminder" "Pay bill", .markSent 1]
    ∧ (∀ r ∈ get_due_tasks (run_due_reminders exampleTasks [exampleEmailRow] 500).1 9999,
        r.task_id ≠ 1) := by
  have h := C6_due_dispatch exampleTasks [exampleEmailRow] 500
  refine ⟨?_, ?_, ?_⟩
  · exact (h.1 _).2 ⟨by decide, rfl, by decide⟩
  · exact h.2.1
  · intro r hr
    exact h.2.2.2.1 (⟨1, "m1", "reminder", "Pay bill", "2024-01-05", 100, 0, some "a@x"⟩,
      exampleEmailRow) (by decide) 9999 r hr

/- ## Claim C7 -/

theorem mem_pyInsert (le : α → α → Bool) (a x : α) (l : List α) :
    x ∈ pyInsert le a l ↔ x = a ∨ x ∈ l := by
  induction l with
  | nil => simp [pyInsert]
  | cons b l ih =>
    by_cases h : le a b = true
    · simp [pyInsert, h]
    · have h' : le a b = false := by simpa using h
      simp only [pyInsert, h', Bool.false_eq_true, if_false, List.mem_cons, ih]
      tauto

theorem pyInsert_perm (le : α → α → Bool) (a : α) (l : List α) :
    (pyInsert le a l).Perm (a :: l) := by
  induction l with
  | nil => simp [pyInsert]
  | cons b l ih =>
    by_cases h : le a b = true
    · simp [pyInsert, h]
    · have h' : le a b = false := by simpa using h
      simp only [pyInsert, h', Bool.false_eq_true, if_false]
      exact (ih.cons b).trans (List.Perm.swap a b l)

theorem pySorted_perm (le : α → α → Bool) (l : List α) :
    (pySorted le l).Perm l := by
  induction l with
  | nil => simp [pySorted]
  | cons a l ih => exact (pyInsert_perm le a _).trans (ih.cons a)

theorem pyInsert_pairwise (le : α → α → Bool)
    (htrans : ∀ a b c, le a b = true → le b c = true → le a c = true)
    (htot : ∀ a b, le a b = true ∨ le b a = true) (a : α) (l : List α)
    (hl : l.Pairwise (fun x y => le x y = true)) :
    (pyInsert le a l).Pairwise (fun x y => le x y = true) := by
  induction l with
  | nil => simp [pyInsert]
  | cons b l ih =>
    rcases List.pairwise_cons.1 hl with ⟨hb, hl'⟩
    by_cases h : le a b = true
    · simp only [pyInsert, h, if_true]
      refine List.pairwise_cons.2 ⟨?_, hl⟩
      intro y hy
      rcases List.mem_cons.1 hy with rfl | hy
      · exact h
      · exact htrans a b y h (hb y hy)
    · have h' : le a b = false := by simpa using h
      have hba : le b a = true := by
        rcases htot a b with hab | hba
        · exact absurd hab (by simp [h'])
        · exact hba
      simp only [pyInsert, h', Bool.false_eq_true, if_false]
      refine List.pairwise_cons.2 ⟨?_, ih hl'⟩
      intro y hy
      rcases (mem_pyInsert le a y l).1 hy with rfl | hy
      · exact hba
      · exact hb y hy

theorem pySorted_pairwise (le : α → α → Bool)
    (htrans : ∀ a b c, le a b = true → le b c = true → le a c = true)
    (htot : ∀ a b, le a b = true ∨ le b a = true) (l : List α) :
    (pySorted le l).Pairwise (fun x y => le x y = true) := by
  induction l with
  | nil => simp [pySorted]
  | cons a l ih => exact pyInsert_pairwise le htrans htot a _ ih

theorem filter_pyInsert_pos {β : Type} [BEq β] [LawfulBEq β] (le : α → α → Bool) (κ : α → β)
    (a : α) (k : β) (hle : ∀ x y, κ x = κ y → le x y = true) (hka : κ a = k) (l : List α) :
    (pyInsert le a l).filter (fun x => κ x == k) = a :: l.filter (fun x => κ x == k) := by
  induction l with
  | nil => simp [pyInsert, hka]
  | cons b l ih =>
    by_cases h : le a b = true
    · simp [pyInsert, h, List.filter_cons, hka]
    · have h' : le a b = false := by simpa using h
      have hbk : (κ b == k) = false := by
        apply beq_eq_false_iff_ne.2
        intro hbk
        exact absurd (hle a b (by rw [hka, hbk])) (by simp [h'])
      simp [pyInsert, h', List.filter_cons, hbk, ih]

theorem filter_pyInsert_neg {β : Type} [BEq β] [LawfulBEq β] (le : α → α → Bool) (κ : α → β)
    (a : α) (k : β) (hka : (κ a == k) = false) (l : List α) :
    (pyInsert le a l).filter (fun x => κ x == k) = l.filter (fun x => κ x == k) := by
  induction l with
  | nil => simp [pyInsert, hka]
  | cons b l ih =>
    by_cases h : le a b = true
    · simp [pyInsert, h, List.filter_cons, hka]
    · have h' : le a b = false := by simpa using h
      simp [pyInsert, h', List.filter_cons, ih]

theorem pySorted_filter {β : Type} [BEq β] [LawfulBEq β] (le : α → α → Bool) (κ : α → β)
    (hle : ∀ x y, κ x = κ y → le x y = true) (k : β) (l : List α) :
    (pySorted le l).filter (fun x => κ x == k) = l.filter (fun x => κ x == k) := by
  induction l with
  | nil => rfl
  | cons a l ih =>
    by_cases h : (κ a == k) = true
    · have hka : κ a = k := by simpa using h
      rw [show pySorted le (a :: l) = pyInsert le a (pySorted le l) from rfl,
        filter_pyInsert_pos le κ a k hle hka, ih]
      simp [List.filter_cons, h]
    · have h' : (κ a == k) = false := by simpa using h
      rw [show pySorted le (a :: l) = pyInsert le a (pySorted le l) from rfl,
        filter_pyInsert_neg le κ a k h', ih]
      simp [List.filter_cons, h']

theorem tupLe_trans (x y z : Int × Int) (h1 : tupLe x y = true) (h2 : tupLe y z = true) :
    tupLe x z = true := by
  simp only [tupLe, Bool.or_eq_true, decide_eq_true_eq, Bool.and_eq_true, beq_iff_eq] at *
  omega

theorem tupLe_total (x y : Int × Int) : tupLe x y = true ∨ tupLe y x = true := by
  simp only [tupLe, Bool.or_eq_true, decide_eq_true_eq, Bool.and_eq_true, beq_iff_eq]
  omega

theorem planLe_trans (a b c : PlanItem) (h1 : planLe a b = true) (h2 : planLe b c = true) :
    planLe a c = true :=
  tupLe_trans _ _ _ h1 h2

theorem planLe_total (a b : PlanItem) : planLe a b = true ∨ planLe b a = true :=
  tupLe_total _ _

theorem tupLe_refl (x : Int × Int) : tupLe x x = true := by
  simp [tupLe]

theorem planLe_of_key_eq (a b : PlanItem) (h : planKey a = planKey b) :
    planLe a b = true := by
  unfold planLe
  rw [h]
  exact tupLe_refl _

/-- C7: planner ordering.  The planner processes the candidate list in the
order produced by the stable sort on the key (category-is-Important first,
then descending importance): the processed order is a permutation of the
input, pairwise sorted by that key, with items of equal key kept in arrival
order (their filtered subsequences are unchanged); and on the spec triple
A (Important, 5), B (Other, 9), C (Important, 8) the order is C, A, B. -/
theorem C7_planner_ordering :
    (∀ (parse : String → Option JDict) (oracle : Nat → List (Option String))
        (items : List PlanItem),
      plan_calendar_actions parse oracle items
        = planGo parse oracle (pySorted planLe items) 1 [])
    ∧ (∀ items : List PlanItem, (pySorted planLe items).Perm items)
    ∧ (∀ items : List PlanItem,
        (pySorted planLe items).Pairwise (fun a b => planLe a b = true))
    ∧ (∀ (items : List PlanItem) (k : Int × Int),
        (pySorted planLe items).filter (fun x => planKey x == k)
          = items.filter (fun x => planKey x == k))
    ∧ pySorted planLe [itemA, itemB, itemC] = [itemC, itemA, itemB] := by
  refine ⟨fun _ _ _ => rfl, fun items => pySorted_perm _ _, ?_, ?_, ?_⟩
  · intro items
    exact pySorted_pairwise planLe planLe_trans planLe_total items
  · intro items k
    exact pySorted_filter planLe planKey planLe_of_key_eq k items
  · decide

/- ## Claim C4 -/

/-- C4: fallback safety.  If every one of the bounded retry attempts yields
no parsable JSON object, the shallow classifier returns exactly
`{category: Spam, importance: 1, action: "", summary: ""}`; the record
persisted by `process_message` (base headers, the fallback fields, an empty
deep summary) carries category Spam and importance 1; the full effect trace
of the run is the single `mark_email`, so `handle_action` is never invoked
for the message. -/
theorem C4_fallback_safety (env : PMEnv) (mid : String) (spammers : List String)
    (h1 : env.cachedRaw = true)
    (h2 : spammers.contains env.parsed.frm = false)
    (h3 : ∀ a ∈ env.shallowAttempts, ∀ s, a = some s →
        extract_json_objects env.parse s = []) :
    initial_classify env.parse env.shallowAttempts = classify_fallback
    ∧ process_message env mid spammers
        = .ok (some (spamRecord mid env.parsed classify_fallback),
               [.markEmail (spamRecord mid env.parsed classify_fallback)],
               spammers ++ [env.parsed.frm])
    ∧ dget (spamRecord mid env.parsed classify_fallback) "category" = some (.jstr "Spam")
    ∧ dget (spamRecord mid env.parsed classify_fallback) "importance" = some (.jnum 1)
    ∧ (∀ e ∈ [PMEffect.markEmail (spamRecord mid env.parsed classify_fallback)],
        isHandleAction e = false) := by
  have hfb : initial_classify env.parse env.shallowAttempts = classify_fallback := by
    unfold initial_classify
    rw [llama_chat_none env.parse env.shallowAttempts h3]
  refine ⟨hfb, ?_, rfl, rfl, ?_⟩
  · simp only [process_message, h1, h2, hfb, Bool.not_true, Bool.false_and,
      Bool.false_eq_true, if_false]
    rfl
  · intro e he
    rcases List.mem_singleton.1 he with rfl
    rfl

/-- Witness for C4: four failed attempts (the default retry budget), the
fallback record, and the effect trace without any `handle_action`. -/
theorem C4_fallback_safety_witness :
    initial_classify exampleFailEnv.parse exampleFailEnv.shallowAttempts = classify_fallback
    ∧ process_message exampleFailEnv "m1" []
        = .ok (some (spamRecord "m1" exampleParsed classify_fallback),
               [.markEmail (spamRecord "m1" exampleParsed classify_fallback)],
               ["alice@ex.com"])
    ∧ dget (spamRecord "m1" exampleParsed classify_fallback) "category"
        = some (.jstr "Spam")
    ∧ dget (spamRecord "m1" exampleParsed classify_fallback) "importance"
        = some (.jnum 1) := by
  have h3 : ∀ a ∈ exampleFailEnv.shallowAttempts, ∀ s, a = some s →
      extract_json_objects exampleFailEnv.parse s = [] := by
    intro a ha s hs
    simp only [exampleFailEnv, List.mem_cons, List.not_mem_nil, or_false] at ha
    rcases ha with rfl | rfl | rfl | rfl <;> cases hs
  have h := C4_fallback_safety exampleFailEnv "m1" [] rfl rfl h3
  exact ⟨h.1, h.2.1, h.2.2.1, h.2.2.2.1⟩

/- ## Claim C9 -/

theorem extractGo_fuel_ge (parse : String → Option JDict) :
    ∀ (fuel : Nat) (cs : List Char), cs.length ≤ fuel →
      extractGo parse fuel cs = extractGo parse cs.length cs := by
  intro fuel
  induction fuel using Nat.strong_induction_on with
  | _ fuel ih =>
    intro cs hlen
    cases cs with
    | nil => cases fuel <;> rfl
    | cons c rest =>
      cases fuel with
      | zero => simp at hlen
      | succ f =>
        have hrest : rest.length ≤ f := by simpa using hlen
        by_cases hc : c = '{'
        · subst hc
          simp only [extractGo, List.length_cons, if_pos rfl]
          cases hscan : scanClose ('{' :: rest) 0 with
          | none => simp [hscan]
          | some j =>
            have h1 := ih f (Nat.lt_succ_self f) (rest.drop j)
              (by simp only [List.length_drop]; omega)
            have h2 := ih rest.length (Nat.lt_succ_of_le hrest) (rest.drop j)
              (by simp only [List.length_drop]; omega)
            cases hp : parse (String.mk ('{' :: rest.take j)) with
            | some fields => simp [hscan, hp, h1, h2]
            | none => simp [hscan, hp, h1, h2]
        · simp only [extractGo, List.length_cons, if_neg hc]
          rw [ih f (Nat.lt_succ_self f) rest hrest]

theorem extractGo_eq_filterMap (parse : String → Option JDict) :
    ∀ (fuel : Nat) (cs : List Char),
      extractGo parse fuel cs = (candGo fuel cs).filterMap parse := by
  intro fuel
  induction fuel with
  | zero => intro cs; cases cs <;> rfl
  | succ fuel ih =>
    intro cs
    cases cs with
    | nil => rfl
    | cons c rest =>
      by_cases hc : c = '{'
      · subst hc
        simp only [extractGo, candGo, if_pos rfl]
        cases hscan : scanClose ('{' :: rest) 0 with
        | none => simp [hscan]
        | some j =>
          simp only [hscan]
          cases hp : parse (String.mk ('{' :: rest.take j)) with
          | some fields => simp [hp, List.filterMap_cons, ih]
          | none => simp [hp, List.filterMap_cons, ih]
      · simp only [extractGo, candGo, if_neg hc]
        exact ih rest

theorem llama_chat_found (parse : String → Option JDict) (pre rest : List (Option String))
    (raw : String)
    (hpre : ∀ a ∈ pre, ∀ s, a = some s → extract_json_objects parse s = [])
    (hraw : extract_json_objects parse raw ≠ []) :
    llama_chat parse (pre ++ some raw :: rest) = some (extract_json_objects parse raw) := by
  induction pre with
  | nil =>
    simp only [List.nil_append, llama_chat]
    have hne : (extract_json_objects parse raw).isEmpty = false := by
      cases h : extract_json_objects parse raw
      · exact absurd h hraw
      · rfl
    simp [hne]
  | cons a pre ih =>
    have hpre' : ∀ x ∈ pre, ∀ s, x = some s → extract_json_objects parse s = [] :=
      fun x hx s hs => hpre x (List.mem_cons_of_mem _ hx) s hs
    cases a with
    | none => simpa [llama_chat] using ih hpre'
    | some s =>
      have hs := hpre (some s) (List.mem_cons_self _ _) s rfl
      simp only [List.cons_append, llama_chat, hs]
      simpa [List.isEmpty] using ih hpre'

/-- C9: the extraction is exactly the balanced-brace candidate scan filtered
through the parser (so malformed candidates are skipped without aborting the
scan); when some attempt text contains at least one well-formed top-level
object the call returns the extracted list, whose head - the first
well-formed candidate - is what the classifier uses; and when no valid
object exists on any retry the call returns `None` instead of raising. -/
theorem C9_extraction (parse : String → Option JDict) (text : String)
    (pre rest : List (Option String)) (raw : String) (j : JDict) (l : List JDict)
    (attempts : List (Option String))
    (hpre : ∀ a ∈ pre, ∀ s, a = some s → extract_json_objects parse s = [])
    (hraw : extract_json_objects parse raw = j :: l)
    (hfail : ∀ a ∈ attempts, ∀ s, a = some s → extract_json_objects parse s = []) :
    extract_json_objects parse text = (candidatesOf text).filterMap parse
    ∧ ((candidatesOf raw).filterMap parse).head? = some j
    ∧ llama_chat parse (pre ++ some raw :: rest) = some (j :: l)
    ∧ initial_classify parse (pre ++ some raw :: rest) = j
    ∧ llama_chat parse attempts = none := by
  have h1 : ∀ t : String, extract_json_objects parse t = (candidatesOf t).filterMap parse :=
    fun t => extractGo_eq_filterMap parse t.data.length t.data
  have h2 : llama_chat parse (pre ++ some raw :: rest) = some (j :: l) := by
    rw [llama_chat_found parse pre rest raw hpre (by rw [hraw]; simp), hraw]
  refine ⟨h1 text, ?_, h2, ?_, llama_chat_none parse attempts hfail⟩
  · rw [← h1 raw, hraw]
    rfl
  · unfold initial_classify
    rw [h2]

/-- Witness for C9 on a text holding a malformed candidate followed by two
well-formed objects, after one failed attempt: the malformed one is skipped,
the first well-formed one is used, and an all-failing attempt list yields
`None`. -/
theorem C9_extraction_witness :
    extract_json_objects exampleExtractParse exampleLLMText
        = [[("tag", .jstr "B")], [("tag", .jstr "C")]]
    ∧ candidatesOf exampleLLMText
        = [String.mk ['{', 'A', '}'], String.mk ['{', 'B', '}'], String.mk ['{', 'C', '}']]
    ∧ initial_classify exampleExtractParse [none, some exampleLLMText] = [("tag", .jstr "B")]
    ∧ llama_chat exampleExtractParse [some "no json here", none] = none := by
  have h := C9_extraction exampleExtractParse exampleLLMText [none] [] exampleLLMText
    [("tag", .jstr "B")] [[("tag", .jstr "C")]] [some "no json here", none]
    (by
      intro a ha s hs
      simp only [List.mem_cons, List.not_mem_nil, or_false] at ha
      subst ha
      cases hs)
    rfl
    (by
      intro a ha s hs
      simp only [List.mem_cons, List.not_mem_nil, or_false] at ha
      rcases ha with rfl | rfl
      · cases hs
        rfl
      · cases hs)
  exact ⟨rfl, rfl, h.2.2.2.1, h.2.2.2.2⟩

/- ## Claim C8 -/

theorem planGo_sched_extends (parse : String → Option JDict)
    (oracle : Nat → List (Option String)) :
    ∀ (items : List PlanItem) (i : Nat) (s : List JDict),
      s <+: (planGo parse oracle items i s).1 := by
  intro items
  induction items with
  | nil => intro i s; simp [planGo]
  | cons item rest ih =>
    intro i s
    simp only [planGo]
    cases h : llama_chat parse (oracle i) with
    | none => simpa using ih (i + 1) s
    | some js =>
      cases js with
      | nil => simpa using ih (i + 1) s
      | cons r0 js =>
        exact (List.prefix_append s [mkPlanTask item r0]).trans (ih (i + 1) _)

theorem planGo_contexts (parse : String → Option JDict)
    (oracle : Nat → List (Option String)) :
    ∀ (items : List PlanItem) (i : Nat) (s : List JDict) (k : Nat), k < items.length →
      ((planGo parse oracle items i s).2).get? k
        = some (((planSchedAt parse oracle items i s k).map dropIds).take 10)
      ∧ (planSchedAt parse oracle items i s k) <+: (planGo parse oracle items i s).1 := by
  intro items
  induction items with
  | nil => intro i s k hk; simp at hk
  | cons item rest ih =>
    intro i s k hk
    cases k with
    | zero =>
      constructor
      · simp [planGo, planSchedAt]
      · show s <+: (planGo parse oracle (item :: rest) i s).1
        simp only [planGo]
        cases h : llama_chat parse (oracle i) with
        | none => simpa using planGo_sched_extends parse oracle rest (i + 1) s
        | some js =>
          cases js with
          | nil => simpa using planGo_sched_extends parse oracle rest (i + 1) s
          | cons r0 js =>
            exact (List.prefix_append s [mkPlanTask item r0]).trans
              (planGo_sched_extends parse oracle rest (i + 1) _)
    | succ k =>
      have hk' : k < rest.length := by simpa using hk
      simp only [planGo, planSchedAt]
      cases h : llama_chat parse (oracle i) with
      | none => simpa using ih (i + 1) s k hk'
      | some js =>
        cases js with
        | nil => simpa using ih (i + 1) s k hk'
        | cons r0 js => simpa using ih (i + 1) (s ++ [mkPlanTask item r0]) k hk'

/-- C8 counterexample: with twelve items, each planning call scheduling one
task whose `k` field encodes the call number, the context of the twelfth
call (position 11) consists of the tasks of calls 1-10 (`k` values 3..12),
the EARLIEST ten of the eleven already scheduled - not the most-recent ten
(the ten scheduled last, `k` values 4..13), because the source caps the
context with `so_far[:10]`. -/
theorem C8_counterexample :
    ((((plan_calendar_actions ctxParse ctxOracle ctxItems).2).get? 11).map
        (fun ctx => ctx.map (fun d => jnumOf d "k")))
      = some [some 3, some 4, some 5, some 6, some 7, some 8, some 9, some 10,
              some 11, some 12]
    ∧ ((((planSchedAt ctxParse ctxOracle (pySorted planLe ctxItems) 1 [] 11).map
          dropIds).reverse.take 10).reverse.map (fun d => jnumOf d "k"))
      = [some 4, some 5, some 6, some 7, some 8, some 9, some 10, some 11,
         some 12, some 13]
    ∧ ¬ (((plan_calendar_actions ctxParse ctxOracle ctxItems).2).get? 11
         = some (((planSchedAt ctxParse ctxOracle (pySorted planLe ctxItems) 1 [] 11).map
             dropIds).reverse.take 10).reverse) := by
  refine ⟨rfl, rfl, ?_⟩
  intro h
  have h2 := congrArg (Option.map (fun ctx => ctx.map (fun d => jnumOf d "k"))) h
  exact absurd h2 (by decide)

/-- C8 amended: the context passed to the planning call at position `k`
consists of at most 10 of the tasks already scheduled earlier in the same
run - namely the first 10 scheduled (the take-10 of the scheduled list
state, which is a prefix of the final scheduled list), not the most-recent
10. -/
theorem C8_planner_context (parse : String → Option JDict)
    (oracle : Nat → List (Option String)) (items : List PlanItem) (k : Nat)
    (hk : k < (pySorted planLe items).length) :
    ((plan_calendar_actions parse oracle items).2).get? k
      = some (((planSchedAt parse oracle (pySorted planLe items) 1 [] k).map dropIds).take 10)
    ∧ (((planSchedAt parse oracle (pySorted planLe items) 1 [] k).map
        dropIds).take 10).length ≤ 10
    ∧ planSchedAt parse oracle (pySorted planLe items) 1 [] k
        <+: (plan_calendar_actions parse oracle items).1 := by
  have h := planGo_contexts parse oracle (pySorted planLe items) 1 [] k hk
  exact ⟨h.1, List.length_take_le _ _, h.2⟩

/-- Witness for C8 at position 11 of the twelve-item run: the context is the
take-10 of the eleven scheduled-so-far tasks, which form a prefix of the
twelve finally scheduled. -/
theorem C8_planner_context_witness :
    ((plan_calendar_actions ctxParse ctxOracle ctxItems).2).get? 11
      = some (((planSchedAt ctxParse ctxOracle (pySorted planLe ctxItems) 1 [] 11).map
          dropIds).take 10)
    ∧ (((planSchedAt ctxParse ctxOracle (pySorted planLe ctxItems) 1 [] 11).map
        dropIds).take 10).length ≤ 10
    ∧ planSchedAt ctxParse ctxOracle (pySorted planLe ctxItems) 1 [] 11
        <+: (plan_calendar_actions ctxParse ctxOracle ctxItems).1 := by
  have h := C8_planner_context ctxParse ctxOracle ctxItems 11 (by decide)
  exact ⟨h.1, h.2.1, h.2.2⟩
